import Mathlib

/-!
Verification of the `AddressQRCodeModal` component
(`ui/components/multichain-accounts/address-qr-code-modal/address-qr-code-modal.tsx`,
chain-identifier variant) of the metamask-extension repository.

The component's derived-value logic is embedded shallowly:

* JavaScript string primitives (`startsWith`, `includes`, `substring`,
  `replace(/\x7b slash dollar\x7d/)`) are modelled on `String.data` character lists
  with exact JS clamping semantics;
* the chain-identifier normalization (`caipChainId` local variable, with its
  `console.warn` diagnostics), the registry lookup producing
  `multichainNetwork`, `networkName`, the address segmentation
  (`addressStart` / `addressMiddle` / `addressEnd`), `getExplorerButtonText`,
  `handleExplorerNavigation` and the QR-code payload are each embedded as an
  executable Lean function;
* the external registry (`networkConfigurationsByChainId`) is passed as an
  explicit association list, and the localization hook `t` is modelled from the
  locale fixture in the accompanying storybook file.
-/

/-- JS `s.startsWith(pre)`: `pre` is a prefix of `s` (character-wise). -/
def strStartsWith (s pre : String) : Bool := decide (pre.data <+: s.data)

/-- JS `s.endsWith(suf)`: `suf` is a suffix of `s` (character-wise). -/
def strEndsWith (s suf : String) : Bool := decide (suf.data <:+ s.data)

/-- JS `s.includes(sub)`: `sub` occurs contiguously inside `s`. -/
def jsIncludes (s sub : String) : Bool := decide (sub.data <:+: s.data)

/-- JS `String.prototype.substring` index clamping: negative indices become
`0`, indices beyond the length become the length. -/
def jsClampIdx (len : Nat) (i : Int) : Nat := (max 0 (min i (len : Int))).toNat

/-- JS `s.substring(a, b)`: clamp both indices into `[0, s.length]`, swap them
if `a > b`, and return the characters in `[lo, hi)`. -/
def jsSubstring (s : String) (a b : Int) : String :=
  let lo := min (jsClampIdx s.length a) (jsClampIdx s.length b)
  let hi := max (jsClampIdx s.length a) (jsClampIdx s.length b)
  String.mk ((s.data.take hi).drop lo)

/-- A network configuration record from the wallet's registry
(`networkConfigurationsByChainId` entry): display name, native currency,
EVM flag and the ordered block-explorer base URLs. -/
structure NetworkRecord where
  name : String
  nativeCurrency : String
  isEvm : Bool
  blockExplorerUrls : List String
deriving DecidableEq

/-- An internal account record: address, CAIP scopes, and display name. -/
structure AccountRecord where
  address : String
  scopes : List String
  accountName : String
deriving DecidableEq

/-- Decimal digit character for `d < 10`. -/
def digitToChar (d : Nat) : Char := Char.ofNat (48 + d)

/-- Fuelled decimal-digit expansion of a natural number. -/
def natDecChars : Nat → Nat → List Char
  | 0, _ => []
  | fuel + 1, n =>
    if n < 10 then [digitToChar n]
    else natDecChars fuel (n / 10) ++ [digitToChar (n % 10)]

/-- Decimal string of a natural number (JS `BigInt.prototype.toString(10)`
for non-negative values). -/
def natDecString (n : Nat) : String := String.mk (natDecChars (n + 1) n)

/-- Is `c` a hexadecimal digit? -/
def isHexDigitChar (c : Char) : Bool :=
  c.isDigit || ('a' ≤ c && c ≤ 'f') || ('A' ≤ c && c ≤ 'F')

/-- Numeric value of a hexadecimal digit. -/
def hexDigitVal (c : Char) : Nat :=
  if c.isDigit then c.toNat - 48
  else if 'a' ≤ c && c ≤ 'f' then c.toNat - 87
  else c.toNat - 55

/-- Value of a big-endian list of hexadecimal digits. -/
def hexToNatList (l : List Char) : Nat :=
  l.foldl (fun acc c => 16 * acc + hexDigitVal c) 0

/-- Modelled from the spec: the hex-to-CAIP conversion performed by the
external `toEvmCaipChainId` helper (from `@metamask/multichain-network-controller`,
not part of this repository). Per the spec (§4.1), a legacy-hex identifier
(`0x` followed by hex digits) is converted "to the canonical EVM-namespace
form for that numeric chain id", and "conversion failure (malformed hex,
out-of-range) yields" a failure, which the caller catches. Failure cases:
no `0x` prefix, empty digit part, a non-hex digit, or a decimal reference
exceeding the 32-character CAIP reference bound. -/
def toEvmCaipChainId (s : String) : Option String :=
  if strStartsWith s "0x" then
    let digits := s.data.drop 2
    if digits = [] then none
    else if digits.all isHexDigitChar then
      let ref := natDecString (hexToNatList digits)
      if ref.length ≤ 32 then some ("eip155:" ++ ref) else none
    else none
  else none

/-- The chain-identifier normalization of the component (the `caipChainId`
local variable), paired with whether a `console.warn` diagnostic was emitted:
an identifier starting with `eip155:` is "already in CAIP format" and kept;
one starting with `0x` is converted, a conversion error being caught and
replaced by `''` with a warning; anything else warns "Unknown chainId format"
and yields `''`. -/
def caipChainIdWithWarn (chainId : String) : String × Bool :=
  if strStartsWith chainId "eip155:" then (chainId, false)
  else if strStartsWith chainId "0x" then
    match toEvmCaipChainId chainId with
    | some c => (c, false)
    | none => ("", true)
  else ("", true)

/-- The normalized chain identifier (`''` is the unknown sentinel). -/
def caipChainId (chainId : String) : String := (caipChainIdWithWarn chainId).1

/-- The component's network resolution: `multichainNetwork` starts as `null`,
and is assigned `networkConfigurationsByChainId[caipChainId]` only when
`chainId` is a non-empty string and the normalized identifier is non-empty. -/
def resolveNetwork (reg : List (String × NetworkRecord)) (chainId : String) :
    Option NetworkRecord :=
  if chainId = "" then none
  else
    let caip := caipChainId chainId
    if caip = "" then none else List.lookup caip reg

/-- `networkName = multichainNetwork?.name || 'Unknown Network'` (JS `||`
also replaces an empty name by the placeholder). -/
def networkName (net : Option NetworkRecord) : String :=
  match net with
  | some r => if r.name = "" then "Unknown Network" else r.name
  | none => "Unknown Network"

/-- Modelled from the spec: the account-scope resolution path of the
`src/ui` variant, whose selector `getMultichainNetwork` is not under the
provided sources. Per the spec (§4.2), this variant "resolves the network
implied by the account's first matching scope, bypassing the chain-identifier
path entirely": the first scope with a registry entry. -/
def firstMatchingScope (reg : List (String × NetworkRecord)) (scopes : List String) :
    Option String :=
  scopes.find? (fun s => (List.lookup s reg).isSome)

/-- Modelled from the spec: the network obtained through the account-scope
resolution path (see `firstMatchingScope`). -/
def accountScopeResolve (reg : List (String × NetworkRecord)) (acct : AccountRecord) :
    Option NetworkRecord :=
  (firstMatchingScope reg acct.scopes).bind (fun k => List.lookup k reg)

/-- `PREFIX_LEN` constant of the component (a JS number). -/
def PREFIX_LEN : Int := 6

/-- `SUFFIX_LEN` constant of the component (a JS number). -/
def SUFFIX_LEN : Int := 5

/-- `addressStart = address.substring(0, PREFIX_LEN)`. -/
def addressStart (address : String) : String :=
  jsSubstring address 0 PREFIX_LEN

/-- `addressMiddle = address.substring(PREFIX_LEN, address.length - SUFFIX_LEN)`
(the JS subtraction may be negative for short addresses). -/
def addressMiddle (address : String) : String :=
  jsSubstring address PREFIX_LEN ((address.length : Int) - SUFFIX_LEN)

/-- `addressEnd = address.substring(address.length - SUFFIX_LEN)` (one-argument
`substring`: the end index defaults to the length). -/
def addressEnd (address : String) : String :=
  jsSubstring address ((address.length : Int) - SUFFIX_LEN) (address.length : Int)

/-- The localization hook `t`, modelled from the locale fixture of the
storybook source: `viewOnExplorer` is "View on Explorer" and
`viewAddressOnExplorer` is "View address on $1". -/
def tMessage (key : String) (args : List String) : String :=
  if key = "viewOnExplorer" then "View on Explorer"
  else if key = "viewAddressOnExplorer" then "View address on " ++ args.headD ""
  else key

/-- `getExplorerButtonText`: generic label when there is no resolved network
or no explorer URL, otherwise an if-chain of `includes` checks on the first
explorer URL (etherscan, bscscan, polygonscan, arbiscan, solscan, in source
order), falling back to the generic label. -/
def getExplorerButtonText (net : Option NetworkRecord) : String :=
  match net with
  | none => tMessage "viewOnExplorer" []
  | some r =>
    match r.blockExplorerUrls with
    | [] => tMessage "viewOnExplorer" []
    | url :: _ =>
      if jsIncludes url "etherscan" then tMessage "viewAddressOnExplorer" ["Etherscan"]
      else if jsIncludes url "bscscan" then tMessage "viewAddressOnExplorer" ["BSCScan"]
      else if jsIncludes url "polygonscan" then tMessage "viewAddressOnExplorer" ["Polygonscan"]
      else if jsIncludes url "arbiscan" then tMessage "viewAddressOnExplorer" ["Arbiscan"]
      else if jsIncludes url "solscan" then tMessage "viewAddressOnExplorer" ["Solscan"]
      else tMessage "viewOnExplorer" []

/-- The fixed explorer-brand table of the specification (§4.3), in the order
the component checks the substrings. -/
def brandTable : List (String × String) :=
  [("etherscan", "Etherscan"), ("bscscan", "BSCScan"), ("polygonscan", "Polygonscan"),
   ("arbiscan", "Arbiscan"), ("solscan", "Solscan")]

/-- The label derivation as the specification words it: classify the base URL
against the ordered brand table, stop at the first match, fall back to the
generic label. -/
def specLabel (url : String) : String :=
  match brandTable.find? (fun p => jsIncludes url p.1) with
  | some p => "View address on " ++ p.2
  | none => "View on Explorer"

/-- `explorerUrl.replace(/\x7b backslash-slash dollar \x7d/, '')`: the regex
matches a single `/` at the end of the string, so exactly one trailing slash
is removed when present. -/
def stripTrailingSlash (url : String) : String :=
  if strEndsWith url "/" then String.mk url.data.dropLast else url

/-- `handleExplorerNavigation`, returning the URL passed to
`openBlockExplorer`, or `none` when the handler returns without navigating
(no resolved network or no explorer URL). -/
def handleExplorerNavigation (net : Option NetworkRecord) (address : String) :
    Option String :=
  match net with
  | none => none
  | some r =>
    match r.blockExplorerUrls with
    | [] => none
    | url :: _ => some (stripTrailingSlash url ++ "/address/" ++ address)

/-- Shallow model of the external `qrcode-generator` object: the construction
parameters and the list of data segments added before `make()`. -/
structure QRCode where
  typeNumber : Nat
  errorCorrectionLevel : String
  dataSegments : List String
  made : Bool
deriving DecidableEq

/-- `qrCode(typeNumber, errorCorrectionLevel)`. -/
def qrCodeInit (typeNumber : Nat) (level : String) : QRCode :=
  { typeNumber := typeNumber, errorCorrectionLevel := level, dataSegments := [], made := false }

/-- `qr.addData(d)` appends one data segment. -/
def QRCode.addData (q : QRCode) (d : String) : QRCode :=
  { q with dataSegments := q.dataSegments ++ [d] }

/-- `qr.make()`. -/
def QRCode.make (q : QRCode) : QRCode := { q with made := true }

/-- The component's QR construction: `qrCode(4, 'M')`, `addData(address)`,
`make()`. -/
def qrImage (address : String) : QRCode :=
  ((qrCodeInit 4 "M").addData address).make

/-- The full payload encoded in the QR image: the concatenation of all added
data segments. -/
def qrPayload (q : QRCode) : String :=
  q.dataSegments.foldl (fun acc s => acc ++ s) ""

/-- Fixture: the Ethereum Mainnet record of the storybook mock state. -/
def ethereumMainnet : NetworkRecord :=
  { name := "Ethereum Mainnet", nativeCurrency := "ETH", isEvm := true,
    blockExplorerUrls := ["https://etherscan.io"] }

/-- Fixture: the Polygon Mainnet record of the storybook mock state. -/
def polygonMainnet : NetworkRecord :=
  { name := "Polygon Mainnet", nativeCurrency := "MATIC", isEvm := true,
    blockExplorerUrls := ["https://polygonscan.com"] }

/-- Fixture: the Solana Mainnet record of the storybook mock state. -/
def solanaMainnet : NetworkRecord :=
  { name := "Solana Mainnet",
    nativeCurrency := "solana:5eykt4UsFv8P8NJdTREpY1vzqKqZKvdp/slip44:501",
    isEvm := false, blockExplorerUrls := [] }

/-- Fixture registry keyed by canonical chain identifier, mirroring the
storybook mock state (EVM entries under their CAIP keys, plus the non-EVM
Solana entry). -/
def sampleRegistry : List (String × NetworkRecord) :=
  [("eip155:1", ethereumMainnet), ("eip155:137", polygonMainnet),
   ("solana:5eykt4UsFv8P8NJdTREpY1vzqKqZKvdp", solanaMainnet)]

/-- Fixture: the storybook's Polygon account (scoped to `eip155:137`). -/
def polygonAccount : AccountRecord :=
  { address := "0xabcdef1234567890abcdef1234567890abcdef12",
    scopes := ["eip155:137"], accountName := "Polygon Account" }

/-- Fixture: the known accounts of the wallet state. -/
def sampleAccounts : List AccountRecord := [polygonAccount]

/-- Fixture: a network whose explorer base URL carries a trailing slash and no
known brand substring. -/
def slashExplorerNet : NetworkRecord :=
  { name := "Example Net", nativeCurrency := "EXM", isEvm := true,
    blockExplorerUrls := ["https://scan.example.org/"] }

/-- Helper: a string starting with `0x` does not start with `eip155:`. -/
lemma startsWith_0x_not_eip155 (s : String) (h : strStartsWith s "0x" = true) :
    strStartsWith s "eip155:" = false := by
  cases he : strStartsWith s "eip155:" with
  | false => rfl
  | true =>
    exfalso
    have h1 : "0x".data <+: s.data := of_decide_eq_true h
    have h2 : "eip155:".data <+: s.data := of_decide_eq_true he
    rcases List.prefix_or_prefix_of_prefix h1 h2 with hp | hp
    · exact absurd hp (by decide)
    · exact absurd hp (by decide)

/-- Helper: `l.take (min m l.length) = l.take m`. -/
lemma take_min_len (l : List Char) (m : Nat) : l.take (min m l.length) = l.take m := by
  rw [← List.take_take, List.take_length]

/-- Helper: reassembling the three segment slices of a list of length at
least 11 yields the list back. -/
lemma take_drop_concat (l : List Char) (h : 11 ≤ l.length) :
    (l.take 6 ++ (l.take (l.length - 5)).drop 6) ++ l.drop (l.length - 5) = l := by
  rw [List.drop_take, ← List.take_add]
  have he : 6 + (l.length - 5 - 6) = l.length - 5 := by omega
  rw [he, List.take_append_drop]

/-- C1 counterexample: a canonical non-EVM chain identifier (the Solana
mainnet id) is not left unchanged by the normalization — it is mapped to the
empty-string sentinel — and the network lookup yields no record even though
the registry holds a record under exactly that key. -/
theorem caip_canonical_identity_cex :
    caipChainId "solana:5eykt4UsFv8P8NJdTREpY1vzqKqZKvdp" = "" ∧
    caipChainId "solana:5eykt4UsFv8P8NJdTREpY1vzqKqZKvdp" ≠
      "solana:5eykt4UsFv8P8NJdTREpY1vzqKqZKvdp" ∧
    List.lookup "solana:5eykt4UsFv8P8NJdTREpY1vzqKqZKvdp" sampleRegistry =
      some solanaMainnet ∧
    resolveNetwork sampleRegistry "solana:5eykt4UsFv8P8NJdTREpY1vzqKqZKvdp" = none := by
  decide

/-- C1 (amended): for every chain identifier already carrying the `eip155:`
namespace, normalization returns it unchanged and the network lookup is the
direct registry lookup of that unchanged key (no hex conversion is involved
in the result). -/
theorem caip_eip155_identity_lookup (reg : List (String × NetworkRecord))
    (chainId : String) (h : strStartsWith chainId "eip155:" = true) :
    caipChainId chainId = chainId ∧
    resolveNetwork reg chainId = List.lookup chainId reg := by
  have hc : caipChainId chainId = chainId := by
    simp [caipChainId, caipChainIdWithWarn, h]
  have hne : chainId ≠ "" := by
    intro he
    subst he
    exact absurd h (by decide)
  exact ⟨hc, by simp [resolveNetwork, hc, hne]⟩

/-- C1 witness: the amended statement at `eip155:1` over the fixture
registry. -/
theorem caip_eip155_identity_lookup_witness :
    strStartsWith "eip155:1" "eip155:" = true ∧
    (caipChainId "eip155:1" = "eip155:1" ∧
     resolveNetwork sampleRegistry "eip155:1" = List.lookup "eip155:1" sampleRegistry) :=
  ⟨by decide, caip_eip155_identity_lookup sampleRegistry "eip155:1" (by decide)⟩

/-- C2 counterexample: for the fixture wallet state, the address
`0xabcdef…ef12` belongs to a known account (scoped to Polygon), yet the
chain-identifier path invoked with `0x1` resolves Ethereum Mainnet while the
account-scope path resolves Polygon Mainnet: the two paths disagree. -/
theorem resolution_paths_disagree_cex :
    polygonAccount ∈ sampleAccounts ∧
    polygonAccount.address = "0xabcdef1234567890abcdef1234567890abcdef12" ∧
    resolveNetwork sampleRegistry "0x1" = some ethereumMainnet ∧
    accountScopeResolve sampleRegistry polygonAccount = some polygonMainnet ∧
    resolveNetwork sampleRegistry "0x1" ≠ accountScopeResolve sampleRegistry polygonAccount := by
  decide

/-- C2 (amended): the chain-identifier path and the account-scope path are
not consistent for every address belonging to a known account (see the
counterexample); they do resolve to the same network record whenever the
account's first registry-matching scope equals the normalized form of the
chain identifier the modal receives. -/
theorem resolution_paths_agree_on_matching_scope
    (reg : List (String × NetworkRecord)) (acct : AccountRecord) (chainId : String)
    (hne : caipChainId chainId ≠ "")
    (hscope : firstMatchingScope reg acct.scopes = some (caipChainId chainId)) :
    resolveNetwork reg chainId = accountScopeResolve reg acct := by
  have hcid : chainId ≠ "" := by
    intro he
    subst he
    exact hne (by decide)
  unfold resolveNetwork accountScopeResolve
  rw [hscope]
  simp [hcid, hne]

/-- C2 witness: the amended statement for the Polygon account and the
legacy-hex Polygon chain id `0x89`. -/
theorem resolution_paths_agree_on_matching_scope_witness :
    caipChainId "0x89" ≠ "" ∧
    firstMatchingScope sampleRegistry polygonAccount.scopes = some (caipChainId "0x89") ∧
    resolveNetwork sampleRegistry "0x89" = accountScopeResolve sampleRegistry polygonAccount :=
  ⟨by decide, by decide,
   resolution_paths_agree_on_matching_scope sampleRegistry polygonAccount "0x89"
     (by decide) (by decide)⟩

/-- C4: whenever the chain identifier normalizes to the unknown sentinel or
the registry has no entry for the normalized identifier, the lookup yields no
record and the displayed network name degrades to "Unknown Network". -/
theorem unknown_network_degrades (reg : List (String × NetworkRecord)) (chainId : String)
    (h : caipChainId chainId = "" ∨ List.lookup (caipChainId chainId) reg = none) :
    resolveNetwork reg chainId = none ∧
    networkName (resolveNetwork reg chainId) = "Unknown Network" := by
  have hres : resolveNetwork reg chainId = none := by
    unfold resolveNetwork
    by_cases hc : chainId = ""
    · simp [hc]
    · rcases h with h | h
      · simp [hc, h]
      · by_cases hcaip : caipChainId chainId = ""
        · simp [hc, hcaip]
        · simp [hc, hcaip, h]
  exact ⟨hres, by rw [hres]; rfl⟩

/-- C4 witness: the unresolvable identifier `garbage` over the fixture
registry. -/
theorem unknown_network_degrades_witness :
    caipChainId "garbage" = "" ∧
    (resolveNetwork sampleRegistry "garbage" = none ∧
     networkName (resolveNetwork sampleRegistry "garbage") = "Unknown Network") :=
  ⟨by decide, unknown_network_degrades sampleRegistry "garbage" (Or.inl (by decide))⟩

/-- C5: a chain identifier matching neither recognized shape (no `eip155:`
and no `0x` lead), or a `0x`-prefixed identifier whose hex conversion fails,
normalizes to the empty-string unknown sentinel with a diagnostic warning;
the normalization is a total function, so no exception escapes. -/
theorem malformed_chain_id_unknown (chainId : String)
    (h : (strStartsWith chainId "eip155:" = false ∧ strStartsWith chainId "0x" = false) ∨
         (strStartsWith chainId "0x" = true ∧ toEvmCaipChainId chainId = none)) :
    caipChainId chainId = "" ∧ (caipChainIdWithWarn chainId).2 = true := by
  rcases h with ⟨h1, h2⟩ | ⟨h2, h3⟩
  · constructor <;> simp [caipChainId, caipChainIdWithWarn, h1, h2]
  · have h1 : strStartsWith chainId "eip155:" = false := startsWith_0x_not_eip155 chainId h2
    constructor <;> simp [caipChainId, caipChainIdWithWarn, h1, h2, h3]

/-- C5 witness: the malformed legacy-hex identifier `0xZZ` (conversion
failure branch). -/
theorem malformed_chain_id_unknown_witness :
    ((strStartsWith "0xZZ" "eip155:" = false ∧ strStartsWith "0xZZ" "0x" = false) ∨
     (strStartsWith "0xZZ" "0x" = true ∧ toEvmCaipChainId "0xZZ" = none)) ∧
    (caipChainId "0xZZ" = "" ∧ (caipChainIdWithWarn "0xZZ").2 = true) :=
  ⟨Or.inr ⟨by decide, by decide⟩,
   malformed_chain_id_unknown "0xZZ" (Or.inr ⟨by decide, by decide⟩)⟩

/-- C3: for every resolved network with at least one explorer base URL, the
button label equals the classification of that first URL against the ordered
brand table (etherscan, bscscan, polygonscan, arbiscan, solscan), stopping at
the first matching substring; a URL containing none of the brand substrings
yields the generic "View on Explorer" label despite having a URL. -/
theorem explorer_label_first_match (r : NetworkRecord) (url : String)
    (rest : List String) (h : r.blockExplorerUrls = url :: rest) :
    getExplorerButtonText (some r) = specLabel url := by
  cases h1 : jsIncludes url "etherscan" <;>
  cases h2 : jsIncludes url "bscscan" <;>
  cases h3 : jsIncludes url "polygonscan" <;>
  cases h4 : jsIncludes url "arbiscan" <;>
  cases h5 : jsIncludes url "solscan" <;>
    simp [getExplorerButtonText, specLabel, brandTable, List.find?, h, h1, h2, h3, h4, h5,
      tMessage]

/-- C3 witness: the fixture Ethereum network yields the Etherscan-branded
label. -/
theorem explorer_label_first_match_witness :
    ethereumMainnet.blockExplorerUrls = "https://etherscan.io" :: [] ∧
    getExplorerButtonText (some ethereumMainnet) = specLabel "https://etherscan.io" :=
  ⟨by decide, explorer_label_first_match ethereumMainnet "https://etherscan.io" [] (by decide)⟩

/-- C6: for every address of length at least 11, the three displayed segments
concatenate exactly to the address, and at length exactly 11 the middle
segment is empty (prefix and suffix consume the whole address without
overlap). -/
theorem address_segments_concat (address : String) (h : 11 ≤ address.length) :
    addressStart address ++ addressMiddle address ++ addressEnd address = address ∧
    (address.length = 11 → addressMiddle address = "") := by
  obtain ⟨l⟩ := address
  have hlen : (String.mk l).length = l.length := rfl
  rw [hlen] at h
  have e0 : jsClampIdx l.length 0 = 0 := by unfold jsClampIdx; omega
  have e6 : jsClampIdx l.length 6 = 6 := by unfold jsClampIdx; omega
  have e5 : jsClampIdx l.length ((l.length : Int) - 5) = l.length - 5 := by
    unfold jsClampIdx; omega
  have eL : jsClampIdx l.length ((l.length : Int)) = l.length := by unfold jsClampIdx; omega
  have hstart : addressStart (String.mk l) = String.mk (l.take 6) := by
    simp only [addressStart, jsSubstring, PREFIX_LEN, hlen, e0, e6]
    norm_num
  have hmid : addressMiddle (String.mk l) = String.mk ((l.take (l.length - 5)).drop 6) := by
    simp only [addressMiddle, jsSubstring, PREFIX_LEN, SUFFIX_LEN, hlen, e6, e5]
    have m1 : max 6 (l.length - 5) = l.length - 5 := by omega
    have m2 : min 6 (l.length - 5) = 6 := by omega
    rw [m1, m2]
  have hend : addressEnd (String.mk l) = String.mk (l.drop (l.length - 5)) := by
    simp only [addressEnd, jsSubstring, SUFFIX_LEN, hlen, e5, eL]
    have m1 : max (l.length - 5) l.length = l.length := by omega
    have m2 : min (l.length - 5) l.length = l.length - 5 := by omega
    rw [m1, m2, List.take_length]
  constructor
  · rw [hstart, hmid, hend]
    show String.mk ((l.take 6 ++ (l.take (l.length - 5)).drop 6) ++ l.drop (l.length - 5)) =
      String.mk l
    exact congrArg String.mk (take_drop_concat l h)
  · intro h11
    rw [hlen] at h11
    rw [hmid, h11]
    show String.mk ((l.take 6).drop 6) = ""
    have : (l.take 6).drop 6 = [] := by
      apply List.drop_eq_nil_of_le
      simp [List.length_take]
    rw [this]

/-- C6 witness: an address of exactly 11 characters. -/
theorem address_segments_concat_witness :
    11 ≤ ("12345678901" : String).length ∧
    (addressStart "12345678901" ++ addressMiddle "12345678901" ++ addressEnd "12345678901" =
        "12345678901" ∧
     (("12345678901" : String).length = 11 → addressMiddle "12345678901" = "")) :=
  ⟨by decide, address_segments_concat "12345678901" (by decide)⟩

/-- C7: for every address shorter than 11 characters, segmentation is total
(no exception is possible) and produces the fully characterized degenerate
output: the prefix is the first `min 6 len` characters, and both the middle
and the suffix start at the clamped index `len - 5`, so the segments may be
empty or overlap but are always defined. -/
theorem address_segments_short (address : String) (h : address.length < 11) :
    addressStart address = String.mk (address.data.take 6) ∧
    addressMiddle address = String.mk ((address.data.take 6).drop (address.length - 5)) ∧
    addressEnd address = String.mk (address.data.drop (address.length - 5)) := by
  obtain ⟨l⟩ := address
  have hlen : (String.mk l).length = l.length := rfl
  have hdata : (String.mk l).data = l := rfl
  rw [hlen] at h
  simp only [hlen, hdata]
  have e0 : jsClampIdx l.length 0 = 0 := by unfold jsClampIdx; omega
  have e6 : jsClampIdx l.length 6 = min 6 l.length := by unfold jsClampIdx; omega
  have e5 : jsClampIdx l.length ((l.length : Int) - 5) = l.length - 5 := by
    unfold jsClampIdx; omega
  have eL : jsClampIdx l.length ((l.length : Int)) = l.length := by unfold jsClampIdx; omega
  refine ⟨?_, ?_, ?_⟩
  · simp only [addressStart, jsSubstring, PREFIX_LEN, hlen, e0, e6]
    have m1 : max 0 (min 6 l.length) = min 6 l.length := by omega
    have m2 : min 0 (min 6 l.length) = 0 := by omega
    rw [m1, m2, List.drop_zero, take_min_len]
  · simp only [addressMiddle, jsSubstring, PREFIX_LEN, SUFFIX_LEN, hlen, e6, e5]
    have m1 : max (min 6 l.length) (l.length - 5) = min 6 l.length := by omega
    have m2 : min (min 6 l.length) (l.length - 5) = l.length - 5 := by omega
    rw [m1, m2, take_min_len]
  · simp only [addressEnd, jsSubstring, SUFFIX_LEN, hlen, e5, eL]
    have m1 : max (l.length - 5) l.length = l.length := by omega
    have m2 : min (l.length - 5) l.length = l.length - 5 := by omega
    rw [m1, m2, List.take_length]

/-- C7 witness: the three-character address `abc`, whose degenerate segments
all equal the whole address (maximal overlap, no failure). -/
theorem address_segments_short_witness :
    ("abc" : String).length < 11 ∧
    (addressStart "abc" = String.mk (("abc" : String).data.take 6) ∧
     addressMiddle "abc" =
       String.mk ((("abc" : String).data.take 6).drop (("abc" : String).length - 5)) ∧
     addressEnd "abc" = String.mk (("abc" : String).data.drop (("abc" : String).length - 5))) :=
  ⟨by decide, address_segments_short "abc" (by decide)⟩

/-- C8: when no network is resolved, or the resolved network has no explorer
URL, the button shows the generic "View on Explorer" label and the navigation
handler returns without a target (a no-op). -/
theorem explorer_fallback_generic (net : Option NetworkRecord) (address : String)
    (h : net = none ∨ ∃ r, net = some r ∧ r.blockExplorerUrls = []) :
    getExplorerButtonText net = "View on Explorer" ∧
    handleExplorerNavigation net address = none := by
  rcases h with h | ⟨r, h, hurls⟩
  · subst h
    exact ⟨rfl, rfl⟩
  · subst h
    constructor
    · simp [getExplorerButtonText, hurls, tMessage]
    · simp [handleExplorerNavigation, hurls]

/-- C8 witness: the fixture Solana network record, which carries no explorer
URL. -/
theorem explorer_fallback_generic_witness :
    ((some solanaMainnet : Option NetworkRecord) = none ∨
     ∃ r, (some solanaMainnet : Option NetworkRecord) = some r ∧ r.blockExplorerUrls = []) ∧
    (getExplorerButtonText (some solanaMainnet) = "View on Explorer" ∧
     handleExplorerNavigation (some solanaMainnet) "0xAB" = none) :=
  ⟨Or.inr ⟨solanaMainnet, rfl, by decide⟩,
   explorer_fallback_generic (some solanaMainnet) "0xAB"
     (Or.inr ⟨solanaMainnet, rfl, by decide⟩)⟩

/-- C9: for every resolved network with at least one explorer base URL, the
navigation target is the first base URL with a single trailing slash removed
(when present), followed by `/address/` and the address verbatim, with no
further encoding. -/
theorem explorer_link_construction (r : NetworkRecord) (address url : String)
    (rest : List String) (h : r.blockExplorerUrls = url :: rest) :
    handleExplorerNavigation (some r) address =
      some ((if strEndsWith url "/" then String.mk url.data.dropLast else url) ++
        "/address/" ++ address) := by
  simp [handleExplorerNavigation, h, stripTrailingSlash]

/-- C9 witness: a base URL carrying one trailing slash, which is stripped
before `/address/` and the raw address are appended. -/
theorem explorer_link_construction_witness :
    slashExplorerNet.blockExplorerUrls = "https://scan.example.org/" :: [] ∧
    handleExplorerNavigation (some slashExplorerNet) "0xAB" =
      some ((if strEndsWith "https://scan.example.org/" "/" then
          String.mk ("https://scan.example.org/" : String).data.dropLast
        else "https://scan.example.org/") ++ "/address/" ++ "0xAB") :=
  ⟨by decide,
   explorer_link_construction slashExplorerNet "0xAB" "https://scan.example.org/" []
     (by decide)⟩

/-- C10: the payload encoded into the QR image is exactly the raw address —
a single data segment holding the address string as given, with no prefix,
checksum normalization, or chain information added. -/
theorem qr_payload_raw_address (address : String) :
    (qrImage address).dataSegments = [address] ∧ qrPayload (qrImage address) = address := by
  constructor
  · rfl
  · show "" ++ address = address
    obtain ⟨l⟩ := address
    exact congrArg String.mk (List.nil_append l)
